import Mathlib

/-!
Shallow embedding of `src/src/tabli-core/src/js/tabManagerState.js` (the
`TabManagerState` Immutable.Record class) together with a model of the
collaborator module `tabWindow.js`, which is not part of the sources and is
therefore modelled from the spec's collaborator contract (section 6).

Identifiers are `Int` (the store's sentinel configuration values are `-1`).
`Immutable.Map` is embedded as an association list with update-in-place
`set`, first-occurrence `delete` and first-occurrence `get`; the iteration
order of `toIndexedSeq` is the list order.
-/

/-- Window entity tracked by the store. The store reads the flags `open`
and `saved`, the keys `openWindowId` and `savedFolderId`, and the payload
fields `windowType` and `openTabCount`; the rest of the entity is opaque to
it. The source field `open` is a Lean keyword and is rendered `isOpen`. -/
structure TabWindow where
  isOpen : Bool
  openWindowId : Int
  saved : Bool
  savedFolderId : Int
  windowType : Int
  openTabCount : Int
  deriving DecidableEq, Repr

/-- Host-supplied live snapshot of an open window (`chromeWindow`):
`{id, focused, ...opaque payload}`. -/
structure ChromeWindow where
  id : Int
  focused : Bool
  windowType : Int
  tabCount : Int
  deriving DecidableEq, Repr

/-- Host-supplied description of a persisted bookmark folder. -/
structure BookmarkFolder where
  id : Int
  deriving DecidableEq, Repr

/-- Modelled from the spec: `TabWindow.updateWindow` (`mergeLiveSnapshot`)
of the absent collaborator module `tabWindow.js` — sets/refreshes the open
fields from the snapshot and preserves the saved fields. -/
def updateWindow (w : TabWindow) (cw : ChromeWindow) : TabWindow :=
  { w with isOpen := true, openWindowId := cw.id,
           windowType := cw.windowType, openTabCount := cw.tabCount }

/-- Modelled from the spec: `TabWindow.makeChromeTabWindow`
(`makeFromLiveSnapshot`) of the absent collaborator module — builds an
open-only entity from a live snapshot. -/
def makeChromeTabWindow (cw : ChromeWindow) : TabWindow :=
  { isOpen := true, openWindowId := cw.id, saved := false, savedFolderId := -1,
    windowType := cw.windowType, openTabCount := cw.tabCount }

/-- Modelled from the spec: `TabWindow.makeFolderTabWindow`
(`makeFromSavedFolder`) of the absent collaborator module — builds a
saved-only entity from a bookmark folder. -/
def makeFolderTabWindow (folder : BookmarkFolder) : TabWindow :=
  { isOpen := false, openWindowId := -1, saved := true, savedFolderId := folder.id,
    windowType := 0, openTabCount := 0 }

/-- Modelled from the spec: `TabWindow.removeOpenWindowState`
(`revertOpenState`) of the absent collaborator module — clears the open
fields, preserves the saved fields. -/
def removeOpenWindowState (w : TabWindow) : TabWindow :=
  { w with isOpen := false, openWindowId := -1 }

/-- Modelled from the spec: `TabWindow.removeSavedWindowState`
(`revertSavedState`) of the absent collaborator module — clears the saved
fields, preserves the open fields. -/
def removeSavedWindowState (w : TabWindow) : TabWindow :=
  { w with saved := false, savedFolderId := -1 }

/-- An `Immutable.Map` from identifiers to entities, embedded as an
association list in iteration order. -/
abbrev IndexMap := List (Int × TabWindow)

/-- Embeds `Immutable.Map.set`: replace the entry at the key in place, or
append a fresh entry when the key is absent. -/
def setKey : IndexMap → Int → TabWindow → IndexMap
  | [], k, v => [(k, v)]
  | p :: ps, k, v => if p.1 = k then (k, v) :: ps else p :: setKey ps k v

/-- Embeds `Immutable.Map.delete`: drop the entry at the key (a no-op when
the key is absent). -/
def delKey : IndexMap → Int → IndexMap
  | [], _ => []
  | p :: ps, k => if p.1 = k then ps else p :: delKey ps k

/-- Embeds `Immutable.Map.get`: the value at the key, or `none`. -/
def getKey : IndexMap → Int → Option TabWindow
  | [], _ => none
  | p :: ps, k => if p.1 = k then some p.2 else getKey ps k

/-- Keys of the map in iteration order. -/
def keysOf (m : IndexMap) : List Int := m.map (fun p => p.1)

/-- Embeds `Immutable.Map.toIndexedSeq().toArray()`: the values in
iteration order. -/
def valuesOf (m : IndexMap) : List TabWindow := m.map (fun p => p.2)

/-- The `TabManagerState` Immutable.Record: the two indices, the bookmark
configuration ids and the focused window id, with the source's `-1`
sentinel defaults. -/
structure TabManagerState where
  windowIdMap : IndexMap := []
  bookmarkIdMap : IndexMap := []
  folderId : Int := -1
  archiveFolderId : Int := -1
  currentWindowId : Int := -1
  deriving DecidableEq, Repr

/-- Embeds `registerTabWindow`: index the entity by open window id when
`open`, and by bookmark folder id when `saved`. -/
def TabManagerState.registerTabWindow (s : TabManagerState) (tabWindow : TabWindow) :
    TabManagerState :=
  let nextWindowIdMap :=
    if tabWindow.isOpen then setKey s.windowIdMap tabWindow.openWindowId tabWindow
    else s.windowIdMap
  let nextBookmarkIdMap :=
    if tabWindow.saved then setKey s.bookmarkIdMap tabWindow.savedFolderId tabWindow
    else s.bookmarkIdMap
  { s with windowIdMap := nextWindowIdMap, bookmarkIdMap := nextBookmarkIdMap }

/-- Embeds `registerTabWindows`: left fold of `registerTabWindow`. -/
def TabManagerState.registerTabWindows (s : TabManagerState) (tabWindows : List TabWindow) :
    TabManagerState :=
  tabWindows.foldl (fun acc w => acc.registerTabWindow w) s

/-- Embeds `handleTabWindowClosed`: delete the entity from `windowIdMap`,
then re-register the reverted entity so a saved window stays in
`bookmarkIdMap`. -/
def TabManagerState.handleTabWindowClosed (s : TabManagerState) (tabWindow : TabWindow) :
    TabManagerState :=
  let closedWindowIdMap := delKey s.windowIdMap tabWindow.openWindowId
  let revertedWindow := removeOpenWindowState tabWindow
  TabManagerState.registerTabWindow { s with windowIdMap := closedWindowIdMap } revertedWindow

/-- Embeds `handleTabClosed`; the collaborator transform `TabWindow.closeTab`
is absent from the sources and passed as the parameter `closeTab`. -/
def TabManagerState.handleTabClosed (closeTab : TabWindow → Int → TabWindow)
    (s : TabManagerState) (tabWindow : TabWindow) (tabId : Int) : TabManagerState :=
  s.registerTabWindow (closeTab tabWindow tabId)

/-- Embeds `handleTabSaved`; the collaborator transform `TabWindow.saveTab`
is absent from the sources and passed as the parameter `saveTab`. -/
def TabManagerState.handleTabSaved (saveTab : TabWindow → Int → Int → TabWindow)
    (s : TabManagerState) (tabWindow : TabWindow) (tabItem tabNode : Int) : TabManagerState :=
  s.registerTabWindow (saveTab tabWindow tabItem tabNode)

/-- Embeds `handleTabUnsaved`; the collaborator transform
`TabWindow.unsaveTab` is absent from the sources and passed as the
parameter `unsaveTab`. -/
def TabManagerState.handleTabUnsaved (unsaveTab : TabWindow → Int → TabWindow)
    (s : TabManagerState) (tabWindow : TabWindow) (tabItem : Int) : TabManagerState :=
  s.registerTabWindow (unsaveTab tabWindow tabItem)

/-- Embeds `handleTabActivated`; the collaborator transform
`TabWindow.setActiveTab` is absent from the sources and passed as the
parameter `setActiveTab`. -/
def TabManagerState.handleTabActivated (setActiveTab : TabWindow → Int → TabWindow)
    (s : TabManagerState) (tabWindow : TabWindow) (tabId : Int) : TabManagerState :=
  s.registerTabWindow (setActiveTab tabWindow tabId)

/-- Embeds `handleTabUpdated`; the collaborator transform
`TabWindow.updateTabItem` is absent from the sources and passed as the
parameter `updateTabItem`. -/
def TabManagerState.handleTabUpdated (updateTabItem : TabWindow → Int → TabWindow)
    (s : TabManagerState) (tabWindow : TabWindow) (tab : Int) : TabManagerState :=
  s.registerTabWindow (updateTabItem tabWindow tab)

/-- Embeds `attachChromeWindow`: evict any previous occupant of the
snapshot's window id via `handleTabWindowClosed`, merge the snapshot into
the entity, and re-register. -/
def TabManagerState.attachChromeWindow (s : TabManagerState) (tabWindow : TabWindow)
    (chromeWindow : ChromeWindow) : TabManagerState :=
  let oldTabWindow := getKey s.windowIdMap chromeWindow.id
  let rmStore := match oldTabWindow with
    | some old => s.handleTabWindowClosed old
    | none => s
  let attachedTabWindow := updateWindow tabWindow chromeWindow
  rmStore.registerTabWindow attachedTabWindow

/-- Embeds `syncChromeWindow`: merge the snapshot into the previously
registered entity (or create a fresh one), register it, and record the
focused window id when the snapshot reports focus. -/
def TabManagerState.syncChromeWindow (s : TabManagerState) (chromeWindow : ChromeWindow) :
    TabManagerState :=
  let prevTabWindow := getKey s.windowIdMap chromeWindow.id
  let tabWindow := match prevTabWindow with
    | some prev => updateWindow prev chromeWindow
    | none => makeChromeTabWindow chromeWindow
  let stReg := s.registerTabWindow tabWindow
  if chromeWindow.focused then { stReg with currentWindowId := chromeWindow.id } else stReg

/-- Embeds `getOpen`: the values of `windowIdMap` in iteration order. -/
def TabManagerState.getOpen (s : TabManagerState) : List TabWindow :=
  valuesOf s.windowIdMap

/-- Embeds `syncWindowList`: close every open window absent from the
snapshot list, then fold `syncChromeWindow` over the list in order. -/
def TabManagerState.syncWindowList (s : TabManagerState) (chromeWindowList : List ChromeWindow) :
    TabManagerState :=
  let tabWindows := s.getOpen
  let chromeIds := chromeWindowList.map (fun cw => cw.id)
  let closedWindows := tabWindows.filter (fun tw => !(chromeIds.contains tw.openWindowId))
  let closedWinStore := closedWindows.foldl (fun acc tw => acc.handleTabWindowClosed tw) s
  chromeWindowList.foldl (fun acc cw => acc.syncChromeWindow cw) closedWinStore

/-- Embeds `setCurrentWindow`. -/
def TabManagerState.setCurrentWindow (s : TabManagerState) (windowId : Int) : TabManagerState :=
  { s with currentWindowId := windowId }

/-- Embeds `removeBookmarkIdMapEntry`. -/
def TabManagerState.removeBookmarkIdMapEntry (s : TabManagerState) (tabWindow : TabWindow) :
    TabManagerState :=
  { s with bookmarkIdMap := delKey s.bookmarkIdMap tabWindow.savedFolderId }

/-- Embeds `unmanageWindow`: delete the bookmark entry, then re-register
the entity with its saved state removed. -/
def TabManagerState.unmanageWindow (s : TabManagerState) (tabWindow : TabWindow) :
    TabManagerState :=
  let rmStore := s.removeBookmarkIdMapEntry tabWindow
  let umWindow := removeSavedWindowState tabWindow
  rmStore.registerTabWindow umWindow

/-- Embeds `attachBookmarkFolder`: build a saved-only entity from the
folder, merge the live snapshot into it, and register the result. -/
def TabManagerState.attachBookmarkFolder (s : TabManagerState) (bookmarkFolder : BookmarkFolder)
    (chromeWindow : ChromeWindow) : TabManagerState :=
  let folderTabWindow := makeFolderTabWindow bookmarkFolder
  let mergedTabWindow := updateWindow folderTabWindow chromeWindow
  s.registerTabWindow mergedTabWindow

/-- Embeds `getAll`: the open windows followed by the saved windows that
are not open. -/
def TabManagerState.getAll (s : TabManagerState) : List TabWindow :=
  s.getOpen ++ (valuesOf s.bookmarkIdMap).filter (fun w => !w.isOpen)

/-- Embeds `getTabWindowsByType`. -/
def TabManagerState.getTabWindowsByType (s : TabManagerState) (windowType : Int) :
    List TabWindow :=
  s.getOpen.filter (fun w => w.windowType = windowType)

/-- Embeds `getTabWindowByChromeId`. -/
def TabManagerState.getTabWindowByChromeId (s : TabManagerState) (windowId : Int) :
    Option TabWindow :=
  getKey s.windowIdMap windowId

/-- Embeds `countOpenWindows`. -/
def TabManagerState.countOpenWindows (s : TabManagerState) : Nat :=
  s.windowIdMap.length

/-- Embeds `countSavedWindows`. -/
def TabManagerState.countSavedWindows (s : TabManagerState) : Nat :=
  s.bookmarkIdMap.length

/-- Embeds `countOpenTabs`. -/
def TabManagerState.countOpenTabs (s : TabManagerState) : Int :=
  s.windowIdMap.foldl (fun count p => count + p.2.openTabCount) 0

/-- Store values reachable from an initial store with empty indices by the
store operations; the per-tab handlers quantify over the collaborator
transform, which the store does not constrain. -/
inductive Reachable : TabManagerState → Prop
  | init (folderId archiveFolderId currentWindowId : Int) :
      Reachable { windowIdMap := [], bookmarkIdMap := [], folderId := folderId,
                  archiveFolderId := archiveFolderId, currentWindowId := currentWindowId }
  | regWin {s : TabManagerState} (w : TabWindow) :
      Reachable s → Reachable (s.registerTabWindow w)
  | regWins {s : TabManagerState} (ws : List TabWindow) :
      Reachable s → Reachable (s.registerTabWindows ws)
  | winClosed {s : TabManagerState} (w : TabWindow) :
      Reachable s → Reachable (s.handleTabWindowClosed w)
  | tabClosed {s : TabManagerState} (f : TabWindow → Int → TabWindow) (w : TabWindow) (tabId : Int) :
      Reachable s → Reachable (TabManagerState.handleTabClosed f s w tabId)
  | tabSaved {s : TabManagerState} (f : TabWindow → Int → Int → TabWindow) (w : TabWindow)
      (tabItem tabNode : Int) :
      Reachable s → Reachable (TabManagerState.handleTabSaved f s w tabItem tabNode)
  | tabUnsaved {s : TabManagerState} (f : TabWindow → Int → TabWindow) (w : TabWindow)
      (tabItem : Int) :
      Reachable s → Reachable (TabManagerState.handleTabUnsaved f s w tabItem)
  | tabActivated {s : TabManagerState} (f : TabWindow → Int → TabWindow) (w : TabWindow)
      (tabId : Int) :
      Reachable s → Reachable (TabManagerState.handleTabActivated f s w tabId)
  | tabUpdated {s : TabManagerState} (f : TabWindow → Int → TabWindow) (w : TabWindow)
      (tab : Int) :
      Reachable s → Reachable (TabManagerState.handleTabUpdated f s w tab)
  | attachWin {s : TabManagerState} (w : TabWindow) (cw : ChromeWindow) :
      Reachable s → Reachable (s.attachChromeWindow w cw)
  | attachFolder {s : TabManagerState} (folder : BookmarkFolder) (cw : ChromeWindow) :
      Reachable s → Reachable (s.attachBookmarkFolder folder cw)
  | unmanage {s : TabManagerState} (w : TabWindow) :
      Reachable s → Reachable (s.unmanageWindow w)
  | syncWin {s : TabManagerState} (cw : ChromeWindow) :
      Reachable s → Reachable (s.syncChromeWindow cw)
  | syncList {s : TabManagerState} (cwl : List ChromeWindow) :
      Reachable s → Reachable (s.syncWindowList cwl)
  | setCurrent {s : TabManagerState} (windowId : Int) :
      Reachable s → Reachable (s.setCurrentWindow windowId)

/-- Well-formedness of a store: each index has pairwise-distinct keys,
each entry's key is the entity's own key field, and each indexed entity
carries the flag of its index. -/
def StoreWF (s : TabManagerState) : Prop :=
  (keysOf s.windowIdMap).Nodup ∧
  (∀ p ∈ s.windowIdMap, p.2.openWindowId = p.1 ∧ p.2.isOpen = true) ∧
  (keysOf s.bookmarkIdMap).Nodup ∧
  (∀ p ∈ s.bookmarkIdMap, p.2.savedFolderId = p.1 ∧ p.2.saved = true)

/-! Association-map lemmas. -/

theorem mem_setKey_elim {m : IndexMap} {k : Int} {v : TabWindow} {p : Int × TabWindow}
    (h : p ∈ setKey m k v) : p = (k, v) ∨ p ∈ m := by
  induction m with
  | nil => simp [setKey] at h; simp [h, Prod.ext_iff]
  | cons q qs ih =>
    by_cases hq : q.1 = k
    · simp only [setKey, if_pos hq, List.mem_cons] at h
      rcases h with h | h
      · left; simpa [Prod.ext_iff] using h
      · right; exact List.mem_cons_of_mem _ h
    · simp only [setKey, if_neg hq, List.mem_cons] at h
      rcases h with h | h
      · right; simp [h]
      · rcases ih h with h | h
        · left; exact h
        · right; exact List.mem_cons_of_mem _ h

theorem self_mem_setKey (m : IndexMap) (k : Int) (v : TabWindow) : (k, v) ∈ setKey m k v := by
  induction m with
  | nil => simp [setKey]
  | cons q qs ih =>
    by_cases hq : q.1 = k
    · simp [setKey, hq]
    · simp only [setKey, if_neg hq, List.mem_cons]
      right; exact ih

theorem mem_keysOf_setKey {m : IndexMap} {k j : Int} {v : TabWindow} :
    j ∈ keysOf (setKey m k v) ↔ j = k ∨ j ∈ keysOf m := by
  induction m with
  | nil => simp [setKey, keysOf]
  | cons q qs ih =>
    by_cases hq : q.1 = k
    · simp [setKey, keysOf, hq]
    · simp only [setKey, if_neg hq, keysOf, List.map_cons, List.mem_cons] at ih ⊢
      rw [ih]; tauto

theorem nodup_keysOf_setKey {m : IndexMap} {k : Int} {v : TabWindow}
    (h : (keysOf m).Nodup) : (keysOf (setKey m k v)).Nodup := by
  induction m with
  | nil => simp [setKey, keysOf]
  | cons q qs ih =>
    simp only [keysOf, List.map_cons, List.nodup_cons] at h
    by_cases hq : q.1 = k
    · simpa [setKey, keysOf, hq] using h
    · simp only [setKey, if_neg hq, keysOf, List.map_cons, List.nodup_cons]
      refine ⟨fun hc => ?_, ih h.2⟩
      rcases (mem_keysOf_setKey (m := qs) (k := k) (j := q.1) (v := v)).1 hc with hc | hc
      · exact hq hc
      · exact h.1 hc

theorem getKey_setKey_self (m : IndexMap) (k : Int) (v : TabWindow) :
    getKey (setKey m k v) k = some v := by
  induction m with
  | nil => simp [setKey, getKey]
  | cons q qs ih =>
    by_cases hq : q.1 = k
    · simp [setKey, getKey, hq]
    · simp [setKey, getKey, hq, ih]

theorem getKey_setKey_of_ne {m : IndexMap} {k j : Int} (v : TabWindow) (h : j ≠ k) :
    getKey (setKey m k v) j = getKey m j := by
  have hkj : ¬ (k = j) := fun hc => h hc.symm
  induction m with
  | nil => simp [setKey, getKey, hkj]
  | cons q qs ih =>
    by_cases hq : q.1 = k
    · have hqj : ¬ (q.1 = j) := by rw [hq]; exact hkj
      have e : setKey (q :: qs) k v = (k, v) :: qs := by simp [setKey, hq]
      rw [e]
      simp [getKey, hkj, hqj]
    · have e : setKey (q :: qs) k v = q :: setKey qs k v := by simp [setKey, hq]
      rw [e]
      by_cases hj : q.1 = j
      · simp [getKey, hj]
      · simp [getKey, hj, ih]

theorem delKey_sublist (m : IndexMap) (k : Int) : (delKey m k).Sublist m := by
  induction m with
  | nil => simp [delKey]
  | cons q qs ih =>
    by_cases hq : q.1 = k
    · simp only [delKey, if_pos hq]
      exact (List.sublist_cons_self q qs)
    · simp only [delKey, if_neg hq]
      exact ih.cons₂ q

theorem mem_delKey_elim {m : IndexMap} {k : Int} {p : Int × TabWindow}
    (h : p ∈ delKey m k) : p ∈ m := (delKey_sublist m k).mem h

theorem keysOf_delKey_sublist (m : IndexMap) (k : Int) :
    (keysOf (delKey m k)).Sublist (keysOf m) := (delKey_sublist m k).map _

theorem nodup_keysOf_delKey {m : IndexMap} {k : Int} (h : (keysOf m).Nodup) :
    (keysOf (delKey m k)).Nodup := (keysOf_delKey_sublist m k).nodup h

theorem mem_delKey_of_ne {m : IndexMap} {k : Int} {p : Int × TabWindow} (hne : p.1 ≠ k) :
    p ∈ delKey m k ↔ p ∈ m := by
  induction m with
  | nil => simp [delKey]
  | cons q qs ih =>
    by_cases hq : q.1 = k
    · simp only [delKey, if_pos hq, List.mem_cons]
      constructor
      · intro h; right; exact h
      · rintro (h | h)
        · exact absurd (h ▸ hq) hne
        · exact h
    · simp only [delKey, if_neg hq, List.mem_cons, ih]

theorem mem_keysOf_delKey {m : IndexMap} {k j : Int} (hnd : (keysOf m).Nodup) :
    j ∈ keysOf (delKey m k) ↔ j ∈ keysOf m ∧ j ≠ k := by
  induction m with
  | nil => simp [delKey, keysOf]
  | cons q qs ih =>
    simp only [keysOf, List.map_cons, List.nodup_cons] at hnd
    by_cases hq : q.1 = k
    · have e : delKey (q :: qs) k = qs := by simp [delKey, hq]
      rw [e]
      simp only [keysOf, List.map_cons, List.mem_cons]
      constructor
      · intro h
        refine ⟨Or.inr h, fun hjk => ?_⟩
        apply hnd.1
        rw [hq, ← hjk]
        exact h
      · rintro ⟨h | h, hjk⟩
        · exact absurd (h.trans hq) hjk
        · exact h
    · have e : delKey (q :: qs) k = q :: delKey qs k := by simp [delKey, hq]
      rw [e]
      have ih2 := ih hnd.2
      simp only [keysOf] at ih2
      simp only [keysOf, List.map_cons, List.mem_cons]
      rw [ih2]
      have hqk : ¬ (q.1 = k) := hq
      constructor
      · rintro (h | ⟨h, hjk⟩)
        · exact ⟨Or.inl h, fun hjk => hqk (h.symm.trans hjk)⟩
        · exact ⟨Or.inr h, hjk⟩
      · rintro ⟨h | h, hjk⟩
        · exact Or.inl h
        · exact Or.inr ⟨h, hjk⟩

theorem getKey_delKey_of_ne {m : IndexMap} {k j : Int} (h : j ≠ k) :
    getKey (delKey m k) j = getKey m j := by
  induction m with
  | nil => simp [delKey]
  | cons q qs ih =>
    by_cases hq : q.1 = k
    · have e : delKey (q :: qs) k = qs := by simp [delKey, hq]
      rw [e]
      have hqj : ¬ (q.1 = j) := by rw [hq]; exact fun hc => h hc.symm
      simp [getKey, hqj]
    · have e : delKey (q :: qs) k = q :: delKey qs k := by simp [delKey, hq]
      rw [e]
      by_cases hj : q.1 = j
      · simp [getKey, hj]
      · simp [getKey, hj, ih]

theorem getKey_eq_none_of_not_mem_keysOf {m : IndexMap} {k : Int} (h : k ∉ keysOf m) :
    getKey m k = none := by
  induction m with
  | nil => simp [getKey]
  | cons q qs ih =>
    simp only [keysOf, List.map_cons, List.mem_cons] at h
    push_neg at h
    have hq : ¬ (q.1 = k) := fun hc => h.1 hc.symm
    simp [getKey, hq, ih h.2]

theorem getKey_delKey_self {m : IndexMap} {k : Int} (hnd : (keysOf m).Nodup) :
    getKey (delKey m k) k = none := by
  apply getKey_eq_none_of_not_mem_keysOf
  intro h
  exact ((mem_keysOf_delKey hnd).1 h).2 rfl

theorem getKey_mem {m : IndexMap} {k : Int} {v : TabWindow} (h : getKey m k = some v) :
    (k, v) ∈ m := by
  induction m with
  | nil => simp [getKey] at h
  | cons q qs ih =>
    by_cases hq : q.1 = k
    · simp only [getKey, if_pos hq] at h
      have h2 : q.2 = v := by injection h
      have hqv : (k, v) = q := by
        rw [Prod.ext_iff]
        exact ⟨hq.symm, h2.symm⟩
      exact List.mem_cons.2 (Or.inl hqv)
    · simp only [getKey, if_neg hq] at h
      exact List.mem_cons_of_mem _ (ih h)

theorem mem_keysOf_of_mem {m : IndexMap} {p : Int × TabWindow} (h : p ∈ m) :
    p.1 ∈ keysOf m := List.mem_map_of_mem (fun q => q.1) h

/-! Projection lemmas for the store operations. -/

theorem registerTabWindow_windowIdMap (s : TabManagerState) (w : TabWindow) :
    (s.registerTabWindow w).windowIdMap =
      if w.isOpen then setKey s.windowIdMap w.openWindowId w else s.windowIdMap := rfl

theorem registerTabWindow_bookmarkIdMap (s : TabManagerState) (w : TabWindow) :
    (s.registerTabWindow w).bookmarkIdMap =
      if w.saved then setKey s.bookmarkIdMap w.savedFolderId w else s.bookmarkIdMap := rfl

theorem registerTabWindow_currentWindowId (s : TabManagerState) (w : TabWindow) :
    (s.registerTabWindow w).currentWindowId = s.currentWindowId := rfl

theorem handleTabWindowClosed_windowIdMap (s : TabManagerState) (w : TabWindow) :
    (s.handleTabWindowClosed w).windowIdMap = delKey s.windowIdMap w.openWindowId := rfl

theorem handleTabWindowClosed_bookmarkIdMap (s : TabManagerState) (w : TabWindow) :
    (s.handleTabWindowClosed w).bookmarkIdMap =
      if w.saved then setKey s.bookmarkIdMap w.savedFolderId (removeOpenWindowState w)
      else s.bookmarkIdMap := rfl

theorem handleTabWindowClosed_currentWindowId (s : TabManagerState) (w : TabWindow) :
    (s.handleTabWindowClosed w).currentWindowId = s.currentWindowId := rfl

/-- The entity that `syncChromeWindow` registers: the merge of the snapshot
into the previous occupant of the snapshot's id, or a fresh entity. -/
def syncMerged (s : TabManagerState) (cw : ChromeWindow) : TabWindow :=
  match getKey s.windowIdMap cw.id with
  | some prev => updateWindow prev cw
  | none => makeChromeTabWindow cw

theorem syncMerged_isOpen (s : TabManagerState) (cw : ChromeWindow) :
    (syncMerged s cw).isOpen = true := by
  unfold syncMerged
  cases getKey s.windowIdMap cw.id <;> rfl

theorem syncMerged_openWindowId (s : TabManagerState) (cw : ChromeWindow) :
    (syncMerged s cw).openWindowId = cw.id := by
  unfold syncMerged
  cases getKey s.windowIdMap cw.id <;> rfl

theorem syncChromeWindow_windowIdMap (s : TabManagerState) (cw : ChromeWindow) :
    (s.syncChromeWindow cw).windowIdMap = setKey s.windowIdMap cw.id (syncMerged s cw) := by
  unfold TabManagerState.syncChromeWindow syncMerged
  cases hg : getKey s.windowIdMap cw.id <;>
    cases hf : cw.focused <;>
      simp [hg, hf, TabManagerState.registerTabWindow, updateWindow, makeChromeTabWindow]

theorem syncChromeWindow_bookmarkIdMap (s : TabManagerState) (cw : ChromeWindow) :
    (s.syncChromeWindow cw).bookmarkIdMap =
      if (syncMerged s cw).saved
      then setKey s.bookmarkIdMap (syncMerged s cw).savedFolderId (syncMerged s cw)
      else s.bookmarkIdMap := by
  unfold TabManagerState.syncChromeWindow syncMerged
  cases hg : getKey s.windowIdMap cw.id <;>
    cases hf : cw.focused <;>
      simp [hg, hf, TabManagerState.registerTabWindow, updateWindow, makeChromeTabWindow]

theorem syncChromeWindow_currentWindowId (s : TabManagerState) (cw : ChromeWindow) :
    (s.syncChromeWindow cw).currentWindowId =
      if cw.focused then cw.id else s.currentWindowId := by
  unfold TabManagerState.syncChromeWindow
  cases hg : getKey s.windowIdMap cw.id <;>
    cases hf : cw.focused <;>
      simp [hg, hf, TabManagerState.registerTabWindow]

/-! Preservation of well-formedness. -/

theorem storeWF_registerTabWindow {s : TabManagerState} (h : StoreWF s) (w : TabWindow) :
    StoreWF (s.registerTabWindow w) := by
  obtain ⟨h1, h2, h3, h4⟩ := h
  refine ⟨?_, ?_, ?_, ?_⟩
  · rw [registerTabWindow_windowIdMap]
    by_cases ho : w.isOpen
    · simpa [ho] using nodup_keysOf_setKey h1
    · simpa [ho] using h1
  · rw [registerTabWindow_windowIdMap]
    by_cases ho : w.isOpen
    · rw [if_pos ho]
      intro p hp
      rcases mem_setKey_elim hp with hp | hp
      · subst hp; exact ⟨rfl, ho⟩
      · exact h2 p hp
    · rw [if_neg ho]; exact h2
  · rw [registerTabWindow_bookmarkIdMap]
    by_cases hs : w.saved
    · simpa [hs] using nodup_keysOf_setKey h3
    · simpa [hs] using h3
  · rw [registerTabWindow_bookmarkIdMap]
    by_cases hs : w.saved
    · rw [if_pos hs]
      intro p hp
      rcases mem_setKey_elim hp with hp | hp
      · subst hp; exact ⟨rfl, hs⟩
      · exact h4 p hp
    · rw [if_neg hs]; exact h4

theorem storeWF_delW {s : TabManagerState} (h : StoreWF s) (k : Int) :
    StoreWF { s with windowIdMap := delKey s.windowIdMap k } := by
  obtain ⟨h1, h2, h3, h4⟩ := h
  exact ⟨nodup_keysOf_delKey h1, fun p hp => h2 p (mem_delKey_elim hp), h3, h4⟩

theorem storeWF_delB {s : TabManagerState} (h : StoreWF s) (k : Int) :
    StoreWF { s with bookmarkIdMap := delKey s.bookmarkIdMap k } := by
  obtain ⟨h1, h2, h3, h4⟩ := h
  exact ⟨h1, h2, nodup_keysOf_delKey h3, fun p hp => h4 p (mem_delKey_elim hp)⟩

theorem storeWF_setCur {s : TabManagerState} (h : StoreWF s) (c : Int) :
    StoreWF { s with currentWindowId := c } := h

theorem storeWF_handleTabWindowClosed {s : TabManagerState} (h : StoreWF s) (w : TabWindow) :
    StoreWF (s.handleTabWindowClosed w) :=
  storeWF_registerTabWindow (storeWF_delW h w.openWindowId) (removeOpenWindowState w)

theorem storeWF_unmanageWindow {s : TabManagerState} (h : StoreWF s) (w : TabWindow) :
    StoreWF (s.unmanageWindow w) :=
  storeWF_registerTabWindow (storeWF_delB h w.savedFolderId) (removeSavedWindowState w)

theorem storeWF_attachChromeWindow {s : TabManagerState} (h : StoreWF s) (w : TabWindow)
    (cw : ChromeWindow) : StoreWF (s.attachChromeWindow w cw) := by
  unfold TabManagerState.attachChromeWindow
  cases hg : getKey s.windowIdMap cw.id with
  | some old =>
    simp only [hg]
    exact storeWF_registerTabWindow (storeWF_handleTabWindowClosed h old) _
  | none =>
    simp only [hg]
    exact storeWF_registerTabWindow h _

theorem storeWF_attachBookmarkFolder {s : TabManagerState} (h : StoreWF s)
    (folder : BookmarkFolder) (cw : ChromeWindow) : StoreWF (s.attachBookmarkFolder folder cw) :=
  storeWF_registerTabWindow h _

theorem storeWF_syncChromeWindow {s : TabManagerState} (h : StoreWF s) (cw : ChromeWindow) :
    StoreWF (s.syncChromeWindow cw) := by
  unfold TabManagerState.syncChromeWindow
  cases hg : getKey s.windowIdMap cw.id with
  | some prev =>
    simp only [hg]
    by_cases hf : cw.focused
    · simp only [hf, if_pos]
      exact storeWF_setCur (storeWF_registerTabWindow h _) _
    · simp only [hf, if_neg, Bool.false_eq_true, not_false_iff]
      exact storeWF_registerTabWindow h _
  | none =>
    simp only [hg]
    by_cases hf : cw.focused
    · simp only [hf, if_pos]
      exact storeWF_setCur (storeWF_registerTabWindow h _) _
    · simp only [hf, if_neg, Bool.false_eq_true, not_false_iff]
      exact storeWF_registerTabWindow h _

theorem storeWF_registerTabWindows {s : TabManagerState} (h : StoreWF s) (ws : List TabWindow) :
    StoreWF (s.registerTabWindows ws) := by
  unfold TabManagerState.registerTabWindows
  induction ws generalizing s with
  | nil => exact h
  | cons w ws ih => exact ih (storeWF_registerTabWindow h w)

theorem storeWF_foldl_close {s : TabManagerState} (h : StoreWF s) (ws : List TabWindow) :
    StoreWF (ws.foldl (fun acc tw => acc.handleTabWindowClosed tw) s) := by
  induction ws generalizing s with
  | nil => exact h
  | cons w ws ih => exact ih (storeWF_handleTabWindowClosed h w)

theorem storeWF_foldl_sync {s : TabManagerState} (h : StoreWF s) (cwl : List ChromeWindow) :
    StoreWF (cwl.foldl (fun acc cw => acc.syncChromeWindow cw) s) := by
  induction cwl generalizing s with
  | nil => exact h
  | cons cw cwl ih => exact ih (storeWF_syncChromeWindow h cw)

theorem storeWF_syncWindowList {s : TabManagerState} (h : StoreWF s)
    (cwl : List ChromeWindow) : StoreWF (s.syncWindowList cwl) :=
  storeWF_foldl_sync (storeWF_foldl_close h _) cwl

/-- Every reachable store is well-formed: the indices have pairwise-distinct
keys, entries are keyed by the entity's own key field, and indexed entities
carry the flag of their index. -/
theorem reachable_storeWF {s : TabManagerState} (h : Reachable s) : StoreWF s := by
  induction h with
  | init fid aid cid => exact ⟨List.nodup_nil, by simp, List.nodup_nil, by simp⟩
  | regWin w _ ih => exact storeWF_registerTabWindow ih w
  | regWins ws _ ih => exact storeWF_registerTabWindows ih ws
  | winClosed w _ ih => exact storeWF_handleTabWindowClosed ih w
  | tabClosed f w tabId _ ih => exact storeWF_registerTabWindow ih _
  | tabSaved f w tabItem tabNode _ ih => exact storeWF_registerTabWindow ih _
  | tabUnsaved f w tabItem _ ih => exact storeWF_registerTabWindow ih _
  | tabActivated f w tabId _ ih => exact storeWF_registerTabWindow ih _
  | tabUpdated f w tab _ ih => exact storeWF_registerTabWindow ih _
  | attachWin w cw _ ih => exact storeWF_attachChromeWindow ih w cw
  | attachFolder folder cw _ ih => exact storeWF_attachBookmarkFolder ih folder cw
  | unmanage w _ ih => exact storeWF_unmanageWindow ih w
  | syncWin cw _ ih => exact storeWF_syncChromeWindow ih cw
  | syncList cwl _ ih => exact storeWF_syncWindowList ih cwl
  | setCurrent windowId _ ih => exact storeWF_setCur ih windowId

/-! The modelled collaborator satisfies the contract of section 6 of the
spec: merges yield open entities and the two reverts clear exactly their
flag, preserving the other side's fields. -/

theorem updateWindow_isOpen (w : TabWindow) (cw : ChromeWindow) :
    (updateWindow w cw).isOpen = true := rfl

theorem updateWindow_saved (w : TabWindow) (cw : ChromeWindow) :
    (updateWindow w cw).saved = w.saved := rfl

theorem updateWindow_savedFolderId (w : TabWindow) (cw : ChromeWindow) :
    (updateWindow w cw).savedFolderId = w.savedFolderId := rfl

theorem makeChromeTabWindow_isOpen (cw : ChromeWindow) :
    (makeChromeTabWindow cw).isOpen = true := rfl

theorem removeOpenWindowState_isOpen (w : TabWindow) :
    (removeOpenWindowState w).isOpen = false := rfl

theorem removeOpenWindowState_saved (w : TabWindow) :
    (removeOpenWindowState w).saved = w.saved := rfl

theorem removeOpenWindowState_savedFolderId (w : TabWindow) :
    (removeOpenWindowState w).savedFolderId = w.savedFolderId := rfl

theorem removeSavedWindowState_saved (w : TabWindow) :
    (removeSavedWindowState w).saved = false := rfl

theorem removeSavedWindowState_isOpen (w : TabWindow) :
    (removeSavedWindowState w).isOpen = w.isOpen := rfl

/-- C1: in every store reachable from the initial empty store by the store
operations, every entity indexed in `windowIdMap` has `open = true` and
every entity indexed in `bookmarkIdMap` has `saved = true`. The modelled
collaborator satisfies the contract hypotheses of the claim
(`updateWindow_isOpen`, `makeChromeTabWindow_isOpen`,
`removeOpenWindowState_isOpen`, `removeSavedWindowState_saved`); the
per-tab transforms are universally quantified in `Reachable`. -/
theorem C1_reachable_index_flags {s : TabManagerState} (h : Reachable s) :
    (∀ p ∈ s.windowIdMap, p.2.isOpen = true) ∧
    (∀ p ∈ s.bookmarkIdMap, p.2.saved = true) := by
  obtain ⟨_, h2, _, h4⟩ := reachable_storeWF h
  exact ⟨fun p hp => (h2 p hp).2, fun p hp => (h4 p hp).2⟩

/-- Witness for C1 at a concrete reachable store: an open-and-saved entity
`⟨true, 1, true, 5, 0, 2⟩` registered into the initial store, followed by a
saved-tab handler step. -/
theorem C1_reachable_index_flags_witness :
    (∀ p ∈ (TabManagerState.handleTabSaved (fun w _ _ => w)
        (TabManagerState.registerTabWindow ⟨[], [], -1, -1, -1⟩ ⟨true, 1, true, 5, 0, 2⟩)
        ⟨true, 1, true, 5, 0, 2⟩ 10 11).windowIdMap, p.2.isOpen = true) ∧
    (∀ p ∈ (TabManagerState.handleTabSaved (fun w _ _ => w)
        (TabManagerState.registerTabWindow ⟨[], [], -1, -1, -1⟩ ⟨true, 1, true, 5, 0, 2⟩)
        ⟨true, 1, true, 5, 0, 2⟩ 10 11).bookmarkIdMap, p.2.saved = true) :=
  C1_reachable_index_flags
    (Reachable.tabSaved (fun w _ _ => w) _ 10 11
      (Reachable.regWin _ (Reachable.init (-1) (-1) (-1))))

/-- The configuration fields of a store: `folderId` (the spec's
`rootFolderId`) paired with `archiveFolderId`. -/
def configOf (s : TabManagerState) : Int × Int := (s.folderId, s.archiveFolderId)

theorem configOf_registerTabWindow (s : TabManagerState) (w : TabWindow) :
    configOf (s.registerTabWindow w) = configOf s := rfl

theorem configOf_handleTabWindowClosed (s : TabManagerState) (w : TabWindow) :
    configOf (s.handleTabWindowClosed w) = configOf s := rfl

theorem configOf_registerTabWindows (s : TabManagerState) (ws : List TabWindow) :
    configOf (s.registerTabWindows ws) = configOf s := by
  unfold TabManagerState.registerTabWindows
  induction ws generalizing s with
  | nil => rfl
  | cons w ws ih => exact (ih (s.registerTabWindow w)).trans rfl

theorem configOf_attachChromeWindow (s : TabManagerState) (w : TabWindow) (cw : ChromeWindow) :
    configOf (s.attachChromeWindow w cw) = configOf s := by
  unfold TabManagerState.attachChromeWindow
  cases hg : getKey s.windowIdMap cw.id <;> simp only [hg] <;> rfl

theorem configOf_syncChromeWindow (s : TabManagerState) (cw : ChromeWindow) :
    configOf (s.syncChromeWindow cw) = configOf s := by
  unfold TabManagerState.syncChromeWindow
  cases hg : getKey s.windowIdMap cw.id <;> cases hf : cw.focused <;> simp only [hg, hf] <;> rfl

theorem configOf_foldl_close (ws : List TabWindow) (s : TabManagerState) :
    configOf (ws.foldl (fun acc tw => acc.handleTabWindowClosed tw) s) = configOf s := by
  induction ws generalizing s with
  | nil => rfl
  | cons w ws ih => exact (ih (s.handleTabWindowClosed w)).trans rfl

theorem configOf_foldl_sync (cwl : List ChromeWindow) (s : TabManagerState) :
    configOf (cwl.foldl (fun acc cw => acc.syncChromeWindow cw) s) = configOf s := by
  induction cwl generalizing s with
  | nil => rfl
  | cons cw cwl ih =>
    exact (ih (s.syncChromeWindow cw)).trans (configOf_syncChromeWindow s cw)

theorem configOf_syncWindowList (s : TabManagerState) (cwl : List ChromeWindow) :
    configOf (s.syncWindowList cwl) = configOf s := by
  unfold TabManagerState.syncWindowList
  exact (configOf_foldl_sync _ _).trans (configOf_foldl_close _ _)

/-- C9: every store operation leaves the configuration fields `folderId`
(the spec's `rootFolderId`) and `archiveFolderId` of the store unchanged;
the per-tab collaborator transforms are universally quantified. -/
theorem C9_config_frame (s : TabManagerState) (w : TabWindow) (ws : List TabWindow)
    (fc : TabWindow → Int → TabWindow) (fv : TabWindow → Int → Int → TabWindow)
    (fu fa fup : TabWindow → Int → TabWindow)
    (tabId tabItem tabNode tab windowId : Int)
    (cw : ChromeWindow) (folder : BookmarkFolder) (cwl : List ChromeWindow) :
    ((s.registerTabWindow w).folderId = s.folderId ∧
      (s.registerTabWindow w).archiveFolderId = s.archiveFolderId) ∧
    ((s.registerTabWindows ws).folderId = s.folderId ∧
      (s.registerTabWindows ws).archiveFolderId = s.archiveFolderId) ∧
    ((s.handleTabWindowClosed w).folderId = s.folderId ∧
      (s.handleTabWindowClosed w).archiveFolderId = s.archiveFolderId) ∧
    ((TabManagerState.handleTabClosed fc s w tabId).folderId = s.folderId ∧
      (TabManagerState.handleTabClosed fc s w tabId).archiveFolderId = s.archiveFolderId) ∧
    ((TabManagerState.handleTabSaved fv s w tabItem tabNode).folderId = s.folderId ∧
      (TabManagerState.handleTabSaved fv s w tabItem tabNode).archiveFolderId
        = s.archiveFolderId) ∧
    ((TabManagerState.handleTabUnsaved fu s w tabItem).folderId = s.folderId ∧
      (TabManagerState.handleTabUnsaved fu s w tabItem).archiveFolderId = s.archiveFolderId) ∧
    ((TabManagerState.handleTabActivated fa s w tabId).folderId = s.folderId ∧
      (TabManagerState.handleTabActivated fa s w tabId).archiveFolderId = s.archiveFolderId) ∧
    ((TabManagerState.handleTabUpdated fup s w tab).folderId = s.folderId ∧
      (TabManagerState.handleTabUpdated fup s w tab).archiveFolderId = s.archiveFolderId) ∧
    ((s.attachChromeWindow w cw).folderId = s.folderId ∧
      (s.attachChromeWindow w cw).archiveFolderId = s.archiveFolderId) ∧
    ((s.attachBookmarkFolder folder cw).folderId = s.folderId ∧
      (s.attachBookmarkFolder folder cw).archiveFolderId = s.archiveFolderId) ∧
    ((s.unmanageWindow w).folderId = s.folderId ∧
      (s.unmanageWindow w).archiveFolderId = s.archiveFolderId) ∧
    ((s.syncChromeWindow cw).folderId = s.folderId ∧
      (s.syncChromeWindow cw).archiveFolderId = s.archiveFolderId) ∧
    ((s.syncWindowList cwl).folderId = s.folderId ∧
      (s.syncWindowList cwl).archiveFolderId = s.archiveFolderId) ∧
    ((s.setCurrentWindow windowId).folderId = s.folderId ∧
      (s.setCurrentWindow windowId).archiveFolderId = s.archiveFolderId) := by
  refine ⟨⟨rfl, rfl⟩, ?_, ⟨rfl, rfl⟩, ⟨rfl, rfl⟩, ⟨rfl, rfl⟩, ⟨rfl, rfl⟩, ⟨rfl, rfl⟩,
    ⟨rfl, rfl⟩, ?_, ⟨rfl, rfl⟩, ⟨rfl, rfl⟩, ?_, ?_, ⟨rfl, rfl⟩⟩
  · exact ⟨congrArg Prod.fst (configOf_registerTabWindows s ws),
      congrArg Prod.snd (configOf_registerTabWindows s ws)⟩
  · exact ⟨congrArg Prod.fst (configOf_attachChromeWindow s w cw),
      congrArg Prod.snd (configOf_attachChromeWindow s w cw)⟩
  · exact ⟨congrArg Prod.fst (configOf_syncChromeWindow s cw),
      congrArg Prod.snd (configOf_syncChromeWindow s cw)⟩
  · exact ⟨congrArg Prod.fst (configOf_syncWindowList s cwl),
      congrArg Prod.snd (configOf_syncWindowList s cwl)⟩

/-- C3: closing a window removes its open id from `windowIdMap`; a saved
window survives in `bookmarkIdMap` in its reverted (open flag cleared)
form, while an open-only window ends up absent from both indices, its
reverted form not being registered anywhere. -/
theorem C3_handleTabWindowClosed {s : TabManagerState} (h : StoreWF s) (w : TabWindow) :
    getKey (s.handleTabWindowClosed w).windowIdMap w.openWindowId = none ∧
    (w.saved = true →
      getKey (s.handleTabWindowClosed w).bookmarkIdMap w.savedFolderId
        = some (removeOpenWindowState w)) ∧
    (w.saved = false →
      (s.handleTabWindowClosed w).bookmarkIdMap = s.bookmarkIdMap ∧
      (∀ p ∈ (s.handleTabWindowClosed w).windowIdMap, p.2 ≠ w) ∧
      (∀ p ∈ (s.handleTabWindowClosed w).bookmarkIdMap, p.2 ≠ w)) := by
  obtain ⟨h1, h2, h3, h4⟩ := h
  refine ⟨?_, ?_, ?_⟩
  · rw [handleTabWindowClosed_windowIdMap]
    exact getKey_delKey_self h1
  · intro hs
    rw [handleTabWindowClosed_bookmarkIdMap, if_pos hs]
    exact getKey_setKey_self _ _ _
  · intro hs
    have hb : (s.handleTabWindowClosed w).bookmarkIdMap = s.bookmarkIdMap := by
      rw [handleTabWindowClosed_bookmarkIdMap, if_neg (by simp [hs])]
    refine ⟨hb, ?_, ?_⟩
    · intro p hp he
      rw [handleTabWindowClosed_windowIdMap] at hp
      have hpm := mem_delKey_elim hp
      have hpk : p.1 ≠ w.openWindowId := by
        have hkm := mem_keysOf_of_mem hp
        exact ((mem_keysOf_delKey h1).1 hkm).2
      exact hpk (by rw [← (h2 p hpm).1, he])
    · intro p hp he
      rw [hb] at hp
      have hsv := (h4 p hp).2
      rw [he, hs] at hsv
      exact Bool.false_ne_true hsv

/-- Witness for C3: a well-formed store holding the open-and-saved entity
`⟨true, 1, true, 5, 0, 2⟩` under both indices, closed at that entity. -/
theorem C3_handleTabWindowClosed_witness :
    StoreWF ⟨[(1, ⟨true, 1, true, 5, 0, 2⟩)], [(5, ⟨true, 1, true, 5, 0, 2⟩)], -1, -1, -1⟩ ∧
    (getKey (TabManagerState.handleTabWindowClosed
        ⟨[(1, ⟨true, 1, true, 5, 0, 2⟩)], [(5, ⟨true, 1, true, 5, 0, 2⟩)], -1, -1, -1⟩
        ⟨true, 1, true, 5, 0, 2⟩).windowIdMap 1 = none ∧
      getKey (TabManagerState.handleTabWindowClosed
        ⟨[(1, ⟨true, 1, true, 5, 0, 2⟩)], [(5, ⟨true, 1, true, 5, 0, 2⟩)], -1, -1, -1⟩
        ⟨true, 1, true, 5, 0, 2⟩).bookmarkIdMap 5
        = some (removeOpenWindowState ⟨true, 1, true, 5, 0, 2⟩)) :=
  ⟨by unfold StoreWF; decide,
    by
      have hc := C3_handleTabWindowClosed (s :=
        ⟨[(1, ⟨true, 1, true, 5, 0, 2⟩)], [(5, ⟨true, 1, true, 5, 0, 2⟩)], -1, -1, -1⟩)
        (by unfold StoreWF; decide) ⟨true, 1, true, 5, 0, 2⟩
      exact ⟨hc.1, hc.2.1 rfl⟩⟩

theorem setKey_idem (m : IndexMap) (k : Int) (v : TabWindow) :
    setKey (setKey m k v) k v = setKey m k v := by
  induction m with
  | nil => simp [setKey]
  | cons q qs ih =>
    by_cases hq : q.1 = k
    · simp [setKey, hq]
    · simp [setKey, hq, ih]

/-- C8: registering the same well-formed entity twice in succession yields
the same store value as registering it once. -/
theorem C8_register_idempotent (s : TabManagerState) (w : TabWindow)
    (h : w.isOpen = true ∨ w.saved = true) :
    (s.registerTabWindow w).registerTabWindow w = s.registerTabWindow w := by
  unfold TabManagerState.registerTabWindow
  by_cases ho : w.isOpen <;> by_cases hs : w.saved <;>
    simp [ho, hs, setKey_idem]

/-- Witness for C8 at a concrete store and the open-only entity
`⟨true, 2, false, -1, 1, 3⟩`. -/
theorem C8_register_idempotent_witness :
    (TabWindow.isOpen ⟨true, 2, false, -1, 1, 3⟩ = true ∨
      TabWindow.saved ⟨true, 2, false, -1, 1, 3⟩ = true) ∧
    (TabManagerState.registerTabWindow
        (TabManagerState.registerTabWindow ⟨[], [], -1, -1, -1⟩ ⟨true, 2, false, -1, 1, 3⟩)
        ⟨true, 2, false, -1, 1, 3⟩ =
      TabManagerState.registerTabWindow ⟨[], [], -1, -1, -1⟩ ⟨true, 2, false, -1, 1, 3⟩) :=
  ⟨Or.inl rfl, C8_register_idempotent _ _ (Or.inl rfl)⟩

theorem updateWindow_openWindowId (w : TabWindow) (cw : ChromeWindow) :
    (updateWindow w cw).openWindowId = cw.id := rfl

theorem attachChromeWindow_of_none {s : TabManagerState} {cw : ChromeWindow}
    (h : getKey s.windowIdMap cw.id = none) (w : TabWindow) :
    s.attachChromeWindow w cw = s.registerTabWindow (updateWindow w cw) := by
  unfold TabManagerState.attachChromeWindow
  rw [h]

theorem attachChromeWindow_of_some {s : TabManagerState} {cw : ChromeWindow} {old : TabWindow}
    (h : getKey s.windowIdMap cw.id = some old) (w : TabWindow) :
    s.attachChromeWindow w cw =
      (s.handleTabWindowClosed old).registerTabWindow (updateWindow w cw) := by
  unfold TabManagerState.attachChromeWindow
  rw [h]

/-- C5: closing an open-and-saved entity and then attaching a live snapshot
carrying the same open id yields a store holding, under both the open id
and the original saved-folder id, an entity with both flags set and the
saved-folder key unchanged; the modelled collaborator preserves saved
fields in `removeOpenWindowState` and `updateWindow` as the claim
hypothesises. -/
theorem C5_close_attach_roundtrip {s : TabManagerState} (h : StoreWF s) (w : TabWindow)
    (hw : getKey s.windowIdMap w.openWindowId = some w)
    (ho : w.isOpen = true) (hs : w.saved = true)
    (cw : ChromeWindow) (hid : cw.id = w.openWindowId) :
    ∃ e : TabWindow,
      getKey ((s.handleTabWindowClosed w).attachChromeWindow
        (removeOpenWindowState w) cw).windowIdMap w.openWindowId = some e ∧
      getKey ((s.handleTabWindowClosed w).attachChromeWindow
        (removeOpenWindowState w) cw).bookmarkIdMap w.savedFolderId = some e ∧
      e.isOpen = true ∧ e.saved = true ∧ e.savedFolderId = w.savedFolderId := by
  have hnone : getKey (s.handleTabWindowClosed w).windowIdMap cw.id = none := by
    rw [handleTabWindowClosed_windowIdMap, hid]
    exact getKey_delKey_self h.1
  have hatt := attachChromeWindow_of_none hnone (removeOpenWindowState w)
  refine ⟨updateWindow (removeOpenWindowState w) cw, ?_, ?_, rfl, hs, rfl⟩
  · rw [hatt, registerTabWindow_windowIdMap]
    simp only [updateWindow_isOpen, if_true, updateWindow_openWindowId, hid]
    exact getKey_setKey_self _ _ _
  · rw [hatt, registerTabWindow_bookmarkIdMap]
    have hsv : (updateWindow (removeOpenWindowState w) cw).saved = true := hs
    simp only [hsv, if_true]
    have hsf : (updateWindow (removeOpenWindowState w) cw).savedFolderId = w.savedFolderId := rfl
    rw [hsf]
    exact getKey_setKey_self _ _ _

/-- Witness for C5: the open-and-saved entity `⟨true, 1, true, 5, 0, 2⟩`
closed and re-attached at open id `1`. -/
theorem C5_close_attach_roundtrip_witness :
    StoreWF ⟨[(1, ⟨true, 1, true, 5, 0, 2⟩)], [(5, ⟨true, 1, true, 5, 0, 2⟩)], -1, -1, -1⟩ ∧
    getKey (TabManagerState.windowIdMap
      ⟨[(1, ⟨true, 1, true, 5, 0, 2⟩)], [(5, ⟨true, 1, true, 5, 0, 2⟩)], -1, -1, -1⟩) 1
      = some ⟨true, 1, true, 5, 0, 2⟩ ∧
    (∃ e : TabWindow,
      getKey ((TabManagerState.handleTabWindowClosed
        ⟨[(1, ⟨true, 1, true, 5, 0, 2⟩)], [(5, ⟨true, 1, true, 5, 0, 2⟩)], -1, -1, -1⟩
        ⟨true, 1, true, 5, 0, 2⟩).attachChromeWindow
        (removeOpenWindowState ⟨true, 1, true, 5, 0, 2⟩) ⟨1, false, 0, 3⟩).windowIdMap 1
        = some e ∧
      getKey ((TabManagerState.handleTabWindowClosed
        ⟨[(1, ⟨true, 1, true, 5, 0, 2⟩)], [(5, ⟨true, 1, true, 5, 0, 2⟩)], -1, -1, -1⟩
        ⟨true, 1, true, 5, 0, 2⟩).attachChromeWindow
        (removeOpenWindowState ⟨true, 1, true, 5, 0, 2⟩) ⟨1, false, 0, 3⟩).bookmarkIdMap 5
        = some e ∧
      e.isOpen = true ∧ e.saved = true ∧ e.savedFolderId = 5) :=
  ⟨by unfold StoreWF; decide, by decide,
    C5_close_attach_roundtrip (by unfold StoreWF; decide) ⟨true, 1, true, 5, 0, 2⟩
      (by decide) rfl rfl ⟨1, false, 0, 3⟩ rfl⟩

/-- C4 (amended): if entity `A` occupies `windowIdMap` at the snapshot's id
in a well-formed store, then `attachChromeWindow` with another entity `B`
evicts `A` — `A` is at no key of the resulting `windowIdMap`, its reverted
saved-only form is at `A.savedFolderId` when `A` was saved, and the merged
form of `B` sits at the snapshot's id — provided the merged form of `B`
differs from `A` and `B` is not saved under `A`'s saved-folder id (the
counterexample shows the claim fails without that proviso). -/
theorem C4_attach_evicts {s : TabManagerState} (h : StoreWF s) (A B : TabWindow)
    (cw : ChromeWindow) (hA : getKey s.windowIdMap cw.id = some A)
    (hmne : updateWindow B cw ≠ A)
    (hBs : B.saved = true → B.savedFolderId ≠ A.savedFolderId) :
    (∀ p ∈ (s.attachChromeWindow B cw).windowIdMap, p.2 ≠ A) ∧
    (A.saved = true →
      getKey (s.attachChromeWindow B cw).bookmarkIdMap A.savedFolderId
        = some (removeOpenWindowState A)) ∧
    getKey (s.attachChromeWindow B cw).windowIdMap cw.id = some (updateWindow B cw) := by
  obtain ⟨h1, h2, h3, h4⟩ := h
  have hAid : A.openWindowId = cw.id := (h2 (cw.id, A) (getKey_mem hA)).1
  have hatt := attachChromeWindow_of_some hA B
  have hwm : (s.attachChromeWindow B cw).windowIdMap =
      setKey (delKey s.windowIdMap cw.id) cw.id (updateWindow B cw) := by
    rw [hatt, registerTabWindow_windowIdMap]
    simp only [updateWindow_isOpen, if_true, updateWindow_openWindowId,
      handleTabWindowClosed_windowIdMap, hAid]
  refine ⟨?_, ?_, ?_⟩
  · intro p hp he
    rw [hwm] at hp
    rcases mem_setKey_elim hp with hp | hp
    · exact hmne (by rw [← he, hp])
    · have hpm := mem_delKey_elim hp
      have hpk : p.1 ≠ cw.id := by
        have hkm := mem_keysOf_of_mem hp
        exact ((mem_keysOf_delKey h1).1 hkm).2
      apply hpk
      rw [← (h2 p hpm).1, he, hAid]
  · intro hAs
    have hbm : (s.attachChromeWindow B cw).bookmarkIdMap =
        if B.saved then
          setKey (setKey s.bookmarkIdMap A.savedFolderId (removeOpenWindowState A))
            B.savedFolderId (updateWindow B cw)
        else setKey s.bookmarkIdMap A.savedFolderId (removeOpenWindowState A) := by
      rw [hatt, registerTabWindow_bookmarkIdMap]
      have hmsv : (updateWindow B cw).saved = B.saved := rfl
      have hmsf : (updateWindow B cw).savedFolderId = B.savedFolderId := rfl
      rw [hmsv, hmsf, handleTabWindowClosed_bookmarkIdMap, if_pos hAs]
    rw [hbm]
    by_cases hB : B.saved = true
    · rw [if_pos hB, getKey_setKey_of_ne _ (Ne.symm (hBs hB))]
      exact getKey_setKey_self _ _ _
    · rw [if_neg hB]
      exact getKey_setKey_self _ _ _
  · rw [hwm]
    exact getKey_setKey_self _ _ _

/-- Witness for C4 (amended): `A = ⟨true, 7, true, 5, 0, 1⟩` occupies key
`7`, evicted by attaching `B = ⟨false, -1, true, 6, 1, 0⟩` with a snapshot
of id `7`. -/
theorem C4_attach_evicts_witness :
    StoreWF ⟨[(7, ⟨true, 7, true, 5, 0, 1⟩)], [(5, ⟨true, 7, true, 5, 0, 1⟩)], -1, -1, -1⟩ ∧
    getKey (TabManagerState.windowIdMap
      ⟨[(7, ⟨true, 7, true, 5, 0, 1⟩)], [(5, ⟨true, 7, true, 5, 0, 1⟩)], -1, -1, -1⟩) 7
      = some ⟨true, 7, true, 5, 0, 1⟩ ∧
    updateWindow ⟨false, -1, true, 6, 1, 0⟩ ⟨7, false, 1, 0⟩ ≠ ⟨true, 7, true, 5, 0, 1⟩ ∧
    ((∀ p ∈ (TabManagerState.attachChromeWindow
        ⟨[(7, ⟨true, 7, true, 5, 0, 1⟩)], [(5, ⟨true, 7, true, 5, 0, 1⟩)], -1, -1, -1⟩
        ⟨false, -1, true, 6, 1, 0⟩ ⟨7, false, 1, 0⟩).windowIdMap,
        p.2 ≠ ⟨true, 7, true, 5, 0, 1⟩) ∧
      (TabWindow.saved ⟨true, 7, true, 5, 0, 1⟩ = true →
        getKey (TabManagerState.attachChromeWindow
          ⟨[(7, ⟨true, 7, true, 5, 0, 1⟩)], [(5, ⟨true, 7, true, 5, 0, 1⟩)], -1, -1, -1⟩
          ⟨false, -1, true, 6, 1, 0⟩ ⟨7, false, 1, 0⟩).bookmarkIdMap 5
          = some (removeOpenWindowState ⟨true, 7, true, 5, 0, 1⟩)) ∧
      getKey (TabManagerState.attachChromeWindow
        ⟨[(7, ⟨true, 7, true, 5, 0, 1⟩)], [(5, ⟨true, 7, true, 5, 0, 1⟩)], -1, -1, -1⟩
        ⟨false, -1, true, 6, 1, 0⟩ ⟨7, false, 1, 0⟩).windowIdMap 7
        = some (updateWindow ⟨false, -1, true, 6, 1, 0⟩ ⟨7, false, 1, 0⟩)) :=
  ⟨by unfold StoreWF; decide, by decide, by decide,
    C4_attach_evicts (by unfold StoreWF; decide) ⟨true, 7, true, 5, 0, 1⟩
      ⟨false, -1, true, 6, 1, 0⟩ ⟨7, false, 1, 0⟩ (by decide) (by decide) (by decide)⟩

/-- Counterexample to C4 as stated: in the well-formed store where
`A = ⟨true, 7, true, 5, 0, 1⟩` occupies key `7`, attaching the different
entity `B = ⟨false, -1, true, 5, 0, 1⟩` (the saved twin of `A`, saved under
`A`'s folder id `5`) with a snapshot of id `7` leaves `A` itself present in
`windowIdMap` at key `7` — the merge of `B` with the snapshot reconstructs
`A` — and `bookmarkIdMap` at key `5` does not hold `A`'s reverted
saved-only form; both claimed conclusions fail. -/
theorem C4_attach_evicts_counterexample :
    StoreWF ⟨[(7, ⟨true, 7, true, 5, 0, 1⟩)], [(5, ⟨true, 7, true, 5, 0, 1⟩)], -1, -1, -1⟩ ∧
    getKey (TabManagerState.windowIdMap
      ⟨[(7, ⟨true, 7, true, 5, 0, 1⟩)], [(5, ⟨true, 7, true, 5, 0, 1⟩)], -1, -1, -1⟩) 7
      = some ⟨true, 7, true, 5, 0, 1⟩ ∧
    (⟨false, -1, true, 5, 0, 1⟩ : TabWindow) ≠ ⟨true, 7, true, 5, 0, 1⟩ ∧
    TabWindow.saved ⟨true, 7, true, 5, 0, 1⟩ = true ∧
    ((7 : Int), (⟨true, 7, true, 5, 0, 1⟩ : TabWindow)) ∈ (TabManagerState.attachChromeWindow
      ⟨[(7, ⟨true, 7, true, 5, 0, 1⟩)], [(5, ⟨true, 7, true, 5, 0, 1⟩)], -1, -1, -1⟩
      ⟨false, -1, true, 5, 0, 1⟩ ⟨7, false, 0, 1⟩).windowIdMap ∧
    getKey (TabManagerState.attachChromeWindow
      ⟨[(7, ⟨true, 7, true, 5, 0, 1⟩)], [(5, ⟨true, 7, true, 5, 0, 1⟩)], -1, -1, -1⟩
      ⟨false, -1, true, 5, 0, 1⟩ ⟨7, false, 0, 1⟩).bookmarkIdMap 5
      ≠ some (removeOpenWindowState ⟨true, 7, true, 5, 0, 1⟩) := by
  refine ⟨by unfold StoreWF; decide, by decide, by decide, by decide, by decide, by decide⟩

/-- C10 (amended): `attachBookmarkFolder` performs no eviction — with an
entity `O` occupying `windowIdMap` at the snapshot's id, it simply
overwrites that key with the merged folder entity and adds the merged
entity under the folder's id in `bookmarkIdMap`, leaving `O`'s own entry in
`bookmarkIdMap` untouched — provided the folder's id differs from `O`'s
saved-folder id (the counterexample shows the claim fails without that
proviso). -/
theorem C10_attachBookmarkFolder_no_eviction {s : TabManagerState} (O : TabWindow)
    (folder : BookmarkFolder) (cw : ChromeWindow)
    (hO : getKey s.windowIdMap cw.id = some O)
    (hOo : O.isOpen = true) (hOs : O.saved = true)
    (hOb : getKey s.bookmarkIdMap O.savedFolderId = some O)
    (hfid : folder.id ≠ O.savedFolderId) :
    (s.attachBookmarkFolder folder cw).windowIdMap
      = setKey s.windowIdMap cw.id (updateWindow (makeFolderTabWindow folder) cw) ∧
    (s.attachBookmarkFolder folder cw).bookmarkIdMap
      = setKey s.bookmarkIdMap folder.id (updateWindow (makeFolderTabWindow folder) cw) ∧
    getKey (s.attachBookmarkFolder folder cw).windowIdMap cw.id
      = some (updateWindow (makeFolderTabWindow folder) cw) ∧
    getKey (s.attachBookmarkFolder folder cw).bookmarkIdMap O.savedFolderId = some O := by
  have heq : s.attachBookmarkFolder folder cw
      = s.registerTabWindow (updateWindow (makeFolderTabWindow folder) cw) := rfl
  have hsv : (updateWindow (makeFolderTabWindow folder) cw).saved = true := rfl
  have hsf : (updateWindow (makeFolderTabWindow folder) cw).savedFolderId = folder.id := rfl
  have hwm : (s.attachBookmarkFolder folder cw).windowIdMap
      = setKey s.windowIdMap cw.id (updateWindow (makeFolderTabWindow folder) cw) := by
    rw [heq, registerTabWindow_windowIdMap]
    simp only [updateWindow_isOpen, if_true, updateWindow_openWindowId]
  have hbm : (s.attachBookmarkFolder folder cw).bookmarkIdMap
      = setKey s.bookmarkIdMap folder.id (updateWindow (makeFolderTabWindow folder) cw) := by
    rw [heq, registerTabWindow_bookmarkIdMap]
    simp only [hsv, if_true, hsf]
  refine ⟨hwm, hbm, ?_, ?_⟩
  · rw [hwm]
    exact getKey_setKey_self _ _ _
  · rw [hbm, getKey_setKey_of_ne _ (Ne.symm hfid)]
    exact hOb

/-- Witness for C10 (amended): `O = ⟨true, 3, true, 9, 0, 1⟩` occupies key
`3`; folder `⟨4⟩` is attached to a snapshot of id `3`. -/
theorem C10_attachBookmarkFolder_no_eviction_witness :
    getKey (TabManagerState.windowIdMap
      ⟨[(3, ⟨true, 3, true, 9, 0, 1⟩)], [(9, ⟨true, 3, true, 9, 0, 1⟩)], -1, -1, -1⟩) 3
      = some ⟨true, 3, true, 9, 0, 1⟩ ∧
    getKey (TabManagerState.bookmarkIdMap
      ⟨[(3, ⟨true, 3, true, 9, 0, 1⟩)], [(9, ⟨true, 3, true, 9, 0, 1⟩)], -1, -1, -1⟩) 9
      = some ⟨true, 3, true, 9, 0, 1⟩ ∧
    (BookmarkFolder.id ⟨4⟩ ≠ 9) ∧
    (getKey (TabManagerState.attachBookmarkFolder
        ⟨[(3, ⟨true, 3, true, 9, 0, 1⟩)], [(9, ⟨true, 3, true, 9, 0, 1⟩)], -1, -1, -1⟩
        ⟨4⟩ ⟨3, false, 0, 5⟩).windowIdMap 3
        = some (updateWindow (makeFolderTabWindow ⟨4⟩) ⟨3, false, 0, 5⟩) ∧
      getKey (TabManagerState.attachBookmarkFolder
        ⟨[(3, ⟨true, 3, true, 9, 0, 1⟩)], [(9, ⟨true, 3, true, 9, 0, 1⟩)], -1, -1, -1⟩
        ⟨4⟩ ⟨3, false, 0, 5⟩).bookmarkIdMap 9
        = some ⟨true, 3, true, 9, 0, 1⟩) :=
  ⟨by decide, by decide, by decide,
    (C10_attachBookmarkFolder_no_eviction ⟨true, 3, true, 9, 0, 1⟩ ⟨4⟩ ⟨3, false, 0, 5⟩
      (by decide) rfl rfl (by decide) (by decide)).2.2⟩

/-- Counterexample to C10 as stated: with `O = ⟨true, 3, true, 9, 0, 1⟩`
open-and-saved at keys `3` and `9` and a folder whose id equals `O`'s
saved-folder id `9`, `attachBookmarkFolder` overwrites `O`'s `bookmarkIdMap`
entry with the merged entity, so `O` does not remain in `savedIndex`. -/
theorem C10_attachBookmarkFolder_no_eviction_counterexample :
    getKey (TabManagerState.windowIdMap
      ⟨[(3, ⟨true, 3, true, 9, 0, 1⟩)], [(9, ⟨true, 3, true, 9, 0, 1⟩)], -1, -1, -1⟩) 3
      = some ⟨true, 3, true, 9, 0, 1⟩ ∧
    TabWindow.saved ⟨true, 3, true, 9, 0, 1⟩ = true ∧
    getKey (TabManagerState.bookmarkIdMap
      ⟨[(3, ⟨true, 3, true, 9, 0, 1⟩)], [(9, ⟨true, 3, true, 9, 0, 1⟩)], -1, -1, -1⟩) 9
      = some ⟨true, 3, true, 9, 0, 1⟩ ∧
    getKey (TabManagerState.attachBookmarkFolder
      ⟨[(3, ⟨true, 3, true, 9, 0, 1⟩)], [(9, ⟨true, 3, true, 9, 0, 1⟩)], -1, -1, -1⟩
      ⟨9⟩ ⟨3, false, 0, 5⟩).bookmarkIdMap 9
      ≠ some ⟨true, 3, true, 9, 0, 1⟩ := by
  refine ⟨by decide, by decide, by decide, by decide⟩

theorem nodup_valuesOf {m : IndexMap} (key : TabWindow → Int)
    (hnd : (keysOf m).Nodup) (hco : ∀ p ∈ m, key p.2 = p.1) : (valuesOf m).Nodup := by
  induction m with
  | nil => simp [valuesOf]
  | cons q qs ih =>
    simp only [keysOf, List.map_cons, List.nodup_cons] at hnd
    simp only [valuesOf, List.map_cons, List.nodup_cons]
    constructor
    · intro hc
      rcases List.mem_map.1 hc with ⟨p, hp, he⟩
      apply hnd.1
      have h1 : key p.2 = p.1 := hco p (List.mem_cons_of_mem _ hp)
      have h2 : key q.2 = q.1 := hco q (List.mem_cons_self _ _)
      have hqp : q.1 = p.1 := by rw [← h2, ← h1, he]
      rw [hqp]
      exact List.mem_map_of_mem (fun p => p.1) hp
    · exact ih hnd.2 (fun p hp => hco p (List.mem_cons_of_mem _ hp))

/-- C6: in every reachable store, `getAll` is `getOpen` followed by exactly
the saved entities that are not open, and lists no entity twice. -/
theorem C6_getAll_nodup {s : TabManagerState} (h : Reachable s) :
    s.getAll = s.getOpen ++ (valuesOf s.bookmarkIdMap).filter (fun w => !w.isOpen) ∧
    s.getAll.Nodup := by
  obtain ⟨h1, h2, h3, h4⟩ := reachable_storeWF h
  refine ⟨rfl, ?_⟩
  unfold TabManagerState.getAll
  rw [List.nodup_append]
  refine ⟨?_, ?_, ?_⟩
  · exact nodup_valuesOf (fun w => w.openWindowId) h1 (fun p hp => (h2 p hp).1)
  · exact List.Nodup.filter _
      (nodup_valuesOf (fun w => w.savedFolderId) h3 (fun p hp => (h4 p hp).1))
  · intro a ha hb
    simp only [TabManagerState.getOpen, valuesOf] at ha
    rcases List.mem_map.1 ha with ⟨p, hp, he⟩
    have hopen : a.isOpen = true := he ▸ (h2 p hp).2
    have hnot := (List.mem_filter.1 hb).2
    rw [hopen] at hnot
    simp at hnot

/-- Witness for C6 at a concrete reachable store: an open-and-saved entity
and a saved-only entity registered into the initial store. -/
theorem C6_getAll_nodup_witness :
    TabManagerState.getAll
        (TabManagerState.registerTabWindow
          (TabManagerState.registerTabWindow ⟨[], [], -1, -1, -1⟩ ⟨true, 1, true, 5, 0, 2⟩)
          ⟨false, -1, true, 6, 1, 0⟩)
      = TabManagerState.getOpen
          (TabManagerState.registerTabWindow
            (TabManagerState.registerTabWindow ⟨[], [], -1, -1, -1⟩ ⟨true, 1, true, 5, 0, 2⟩)
            ⟨false, -1, true, 6, 1, 0⟩)
        ++ (valuesOf (TabManagerState.bookmarkIdMap
            (TabManagerState.registerTabWindow
              (TabManagerState.registerTabWindow ⟨[], [], -1, -1, -1⟩ ⟨true, 1, true, 5, 0, 2⟩)
              ⟨false, -1, true, 6, 1, 0⟩))).filter (fun w => !w.isOpen) ∧
    (TabManagerState.getAll
        (TabManagerState.registerTabWindow
          (TabManagerState.registerTabWindow ⟨[], [], -1, -1, -1⟩ ⟨true, 1, true, 5, 0, 2⟩)
          ⟨false, -1, true, 6, 1, 0⟩)).Nodup :=
  C6_getAll_nodup
    (Reachable.regWin _ (Reachable.regWin _ (Reachable.init (-1) (-1) (-1))))

/-- The id of the last snapshot in the list that reports focus, if any. -/
def lastFocusedId : List ChromeWindow → Option Int
  | [] => none
  | cw :: rest =>
    match lastFocusedId rest with
    | some i => some i
    | none => if cw.focused then some cw.id else none

/-- Sanity: `lastFocusedId` is the last element of the ids of the focused
snapshots, in list order. -/
theorem lastFocusedId_eq_getLast (cwl : List ChromeWindow) :
    lastFocusedId cwl =
      ((cwl.filter (fun cw => cw.focused)).map (fun cw => cw.id)).getLast? := by
  induction cwl with
  | nil => rfl
  | cons cw rest ih =>
    simp only [lastFocusedId]
    by_cases hf : cw.focused
    · have e1 : (cw :: rest).filter (fun c => c.focused)
          = cw :: rest.filter (fun c => c.focused) := by
        simp [List.filter_cons, hf]
      rw [e1, List.map_cons, List.getLast?_cons]
      cases hres : lastFocusedId rest with
      | some i =>
        rw [ih] at hres
        rw [hres]
        rfl
      | none =>
        rw [ih] at hres
        rw [hres]
        simp [hf]
    · have e1 : (cw :: rest).filter (fun c => c.focused)
          = rest.filter (fun c => c.focused) := by
        simp [List.filter_cons, hf]
      rw [e1, ← ih]
      cases hres : lastFocusedId rest with
      | some i => rfl
      | none => simp [hf]

theorem foldl_close_currentWindowId (ws : List TabWindow) (s : TabManagerState) :
    (ws.foldl (fun acc tw => acc.handleTabWindowClosed tw) s).currentWindowId
      = s.currentWindowId := by
  induction ws generalizing s with
  | nil => rfl
  | cons w ws ih =>
    rw [List.foldl_cons, ih, handleTabWindowClosed_currentWindowId]

theorem foldl_sync_currentWindowId (cwl : List ChromeWindow) (s : TabManagerState) :
    (cwl.foldl (fun acc cw => acc.syncChromeWindow cw) s).currentWindowId =
      match lastFocusedId cwl with
      | some i => i
      | none => s.currentWindowId := by
  induction cwl generalizing s with
  | nil => rfl
  | cons cw cwl ih =>
    rw [List.foldl_cons, ih]
    simp only [lastFocusedId]
    cases hres : lastFocusedId cwl with
    | some i => rfl
    | none =>
      rw [syncChromeWindow_currentWindowId]
      by_cases hf : cw.focused
      · simp [hf]
      · simp [hf]

/-- C7: after `syncWindowList`, the focused window id equals the id of the
last snapshot in the list reporting focus, and is unchanged when no
snapshot reports focus. -/
theorem C7_sync_focus (s : TabManagerState) (cwl : List ChromeWindow) :
    (s.syncWindowList cwl).currentWindowId =
      match lastFocusedId cwl with
      | some i => i
      | none => s.currentWindowId := by
  unfold TabManagerState.syncWindowList
  rw [foldl_sync_currentWindowId]
  cases hres : lastFocusedId cwl with
  | some i => rfl
  | none => exact foldl_close_currentWindowId _ _

theorem foldl_close_windowIdMap (ws : List TabWindow) (s : TabManagerState) :
    (ws.foldl (fun acc tw => acc.handleTabWindowClosed tw) s).windowIdMap
      = ws.foldl (fun m tw => delKey m tw.openWindowId) s.windowIdMap := by
  induction ws generalizing s with
  | nil => rfl
  | cons w ws ih =>
    rw [List.foldl_cons, List.foldl_cons, ih, handleTabWindowClosed_windowIdMap]

theorem mem_keysOf_foldl_delKey (ws : List TabWindow) {m : IndexMap}
    (hnd : (keysOf m).Nodup) (k : Int) :
    k ∈ keysOf (ws.foldl (fun m tw => delKey m tw.openWindowId) m) ↔
      k ∈ keysOf m ∧ ∀ w ∈ ws, w.openWindowId ≠ k := by
  induction ws generalizing m with
  | nil => simp
  | cons w ws ih =>
    rw [List.foldl_cons, ih (nodup_keysOf_delKey hnd), mem_keysOf_delKey hnd]
    simp only [List.mem_cons, forall_eq_or_imp]
    constructor
    · rintro ⟨⟨hm, hk⟩, hall⟩
      exact ⟨hm, Ne.symm hk, hall⟩
    · rintro ⟨hm, hk, hall⟩
      exact ⟨⟨hm, Ne.symm hk⟩, hall⟩

theorem mem_keysOf_foldl_sync (cwl : List ChromeWindow) (s : TabManagerState) (k : Int) :
    k ∈ keysOf ((cwl.foldl (fun acc cw => acc.syncChromeWindow cw) s)).windowIdMap ↔
      k ∈ keysOf s.windowIdMap ∨ k ∈ cwl.map (fun cw => cw.id) := by
  induction cwl generalizing s with
  | nil => simp
  | cons cw cwl ih =>
    rw [List.foldl_cons, ih, syncChromeWindow_windowIdMap, mem_keysOf_setKey]
    simp only [List.map_cons, List.mem_cons]
    tauto

theorem mem_keysOf_bookmark_handleClosed {s : TabManagerState} (w : TabWindow) {j : Int}
    (h : j ∈ keysOf s.bookmarkIdMap) :
    j ∈ keysOf (s.handleTabWindowClosed w).bookmarkIdMap := by
  rw [handleTabWindowClosed_bookmarkIdMap]
  by_cases hs : w.saved = true
  · rw [if_pos hs]; exact mem_keysOf_setKey.2 (Or.inr h)
  · rw [if_neg hs]; exact h

theorem mem_keysOf_bookmark_sync {s : TabManagerState} (cw : ChromeWindow) {j : Int}
    (h : j ∈ keysOf s.bookmarkIdMap) :
    j ∈ keysOf (s.syncChromeWindow cw).bookmarkIdMap := by
  rw [syncChromeWindow_bookmarkIdMap]
  by_cases hs : (syncMerged s cw).saved = true
  · rw [if_pos hs]; exact mem_keysOf_setKey.2 (Or.inr h)
  · rw [if_neg hs]; exact h

theorem mem_keysOf_bookmark_foldl_close (ws : List TabWindow) {s : TabManagerState} {j : Int}
    (h : j ∈ keysOf s.bookmarkIdMap) :
    j ∈ keysOf ((ws.foldl (fun acc tw => acc.handleTabWindowClosed tw) s)).bookmarkIdMap := by
  induction ws generalizing s with
  | nil => exact h
  | cons w ws ih => exact ih (mem_keysOf_bookmark_handleClosed w h)

theorem mem_keysOf_bookmark_foldl_sync (cwl : List ChromeWindow) {s : TabManagerState} {j : Int}
    (h : j ∈ keysOf s.bookmarkIdMap) :
    j ∈ keysOf ((cwl.foldl (fun acc cw => acc.syncChromeWindow cw) s)).bookmarkIdMap := by
  induction cwl generalizing s with
  | nil => exact h
  | cons cw cwl ih => exact ih (mem_keysOf_bookmark_sync cw h)

theorem saved_key_after_foldl_close (ws : List TabWindow) {s : TabManagerState} {w : TabWindow}
    (hw : w ∈ ws) (hs : w.saved = true) :
    w.savedFolderId
      ∈ keysOf ((ws.foldl (fun acc tw => acc.handleTabWindowClosed tw) s)).bookmarkIdMap := by
  induction ws generalizing s with
  | nil => cases hw
  | cons w0 ws ih =>
    rw [List.foldl_cons]
    rcases List.mem_cons.1 hw with he | hm
    · subst he
      apply mem_keysOf_bookmark_foldl_close
      rw [handleTabWindowClosed_bookmarkIdMap, if_pos hs]
      exact mem_keysOf_setKey.2 (Or.inl rfl)
    · exact ih hm

/-- C2: `syncWindowList` is the closure fold (closing every open window
whose id is absent from the snapshot list) followed by the sync fold in
list order; after it, the keys of `windowIdMap` are exactly the ids of the
snapshot list, and each saved entity whose window was closed keeps an entry
under its saved-folder id in `bookmarkIdMap`. -/
theorem C2_syncWindowList {s : TabManagerState} (h : StoreWF s) (cwl : List ChromeWindow) :
    s.syncWindowList cwl =
      cwl.foldl (fun acc cw => acc.syncChromeWindow cw)
        ((s.getOpen.filter
            (fun tw => !((cwl.map (fun cw => cw.id)).contains tw.openWindowId))).foldl
          (fun acc tw => acc.handleTabWindowClosed tw) s) ∧
    (∀ k, k ∈ keysOf (s.syncWindowList cwl).windowIdMap ↔ k ∈ cwl.map (fun cw => cw.id)) ∧
    (∀ p ∈ s.windowIdMap, p.2.saved = true →
      p.2.openWindowId ∉ cwl.map (fun cw => cw.id) →
      p.2.savedFolderId ∈ keysOf (s.syncWindowList cwl).bookmarkIdMap) := by
  obtain ⟨h1, h2, h3, h4⟩ := h
  have hdef : s.syncWindowList cwl =
      cwl.foldl (fun acc cw => acc.syncChromeWindow cw)
        ((s.getOpen.filter
            (fun tw => !((cwl.map (fun cw => cw.id)).contains tw.openWindowId))).foldl
          (fun acc tw => acc.handleTabWindowClosed tw) s) := rfl
  refine ⟨hdef, ?_, ?_⟩
  · intro k
    rw [hdef, mem_keysOf_foldl_sync]
    constructor
    · rintro (hk | hk)
      · rw [foldl_close_windowIdMap, mem_keysOf_foldl_delKey _ h1] at hk
        obtain ⟨hk1, hk2⟩ := hk
        by_contra hnot
        simp only [keysOf] at hk1
        rcases List.mem_map.1 hk1 with ⟨p, hp, hpk⟩
        have hco := (h2 p hp).1
        have hval : p.2 ∈ s.getOpen := List.mem_map_of_mem (fun q => q.2) hp
        have hfl : p.2 ∈ s.getOpen.filter
            (fun tw => !((cwl.map (fun cw => cw.id)).contains tw.openWindowId)) := by
          rw [List.mem_filter]
          refine ⟨hval, ?_⟩
          rw [hco, hpk]
          simp [hnot]
        have hne := hk2 p.2 hfl
        exact hne (by rw [hco, hpk])
      · exact hk
    · intro hk
      exact Or.inr hk
  · intro p hp hsv hnotin
    rw [hdef]
    apply mem_keysOf_bookmark_foldl_sync
    apply saved_key_after_foldl_close _ ?_ hsv
    rw [List.mem_filter]
    refine ⟨List.mem_map_of_mem (fun q => q.2) hp, ?_⟩
    have hk1 : p.2.openWindowId = p.1 := (h2 p hp).1
    simp only [hk1] at hnotin ⊢
    simp [hnotin]

/-- Witness for C2 at the spec's example: `windowIdMap = {1: X, 2: Y}` with
`X` also saved under folder `5`, synced against snapshots with ids `[2, 3]`:
key `1` is gone, keys `2` and `3` are present, and folder key `5` survives. -/
theorem C2_syncWindowList_witness :
    StoreWF ⟨[(1, ⟨true, 1, true, 5, 0, 1⟩), (2, ⟨true, 2, false, -1, 0, 1⟩)],
      [(5, ⟨true, 1, true, 5, 0, 1⟩)], -1, -1, -1⟩ ∧
    ((1 : Int) ∈ keysOf (TabManagerState.syncWindowList
        ⟨[(1, ⟨true, 1, true, 5, 0, 1⟩), (2, ⟨true, 2, false, -1, 0, 1⟩)],
          [(5, ⟨true, 1, true, 5, 0, 1⟩)], -1, -1, -1⟩
        [⟨2, false, 0, 4⟩, ⟨3, false, 0, 6⟩]).windowIdMap ↔
      (1 : Int) ∈ ([⟨2, false, 0, 4⟩, ⟨3, false, 0, 6⟩] : List ChromeWindow).map
        (fun cw => cw.id)) ∧
    ((2 : Int) ∈ keysOf (TabManagerState.syncWindowList
        ⟨[(1, ⟨true, 1, true, 5, 0, 1⟩), (2, ⟨true, 2, false, -1, 0, 1⟩)],
          [(5, ⟨true, 1, true, 5, 0, 1⟩)], -1, -1, -1⟩
        [⟨2, false, 0, 4⟩, ⟨3, false, 0, 6⟩]).windowIdMap ↔
      (2 : Int) ∈ ([⟨2, false, 0, 4⟩, ⟨3, false, 0, 6⟩] : List ChromeWindow).map
        (fun cw => cw.id)) ∧
    ((3 : Int) ∈ keysOf (TabManagerState.syncWindowList
        ⟨[(1, ⟨true, 1, true, 5, 0, 1⟩), (2, ⟨true, 2, false, -1, 0, 1⟩)],
          [(5, ⟨true, 1, true, 5, 0, 1⟩)], -1, -1, -1⟩
        [⟨2, false, 0, 4⟩, ⟨3, false, 0, 6⟩]).windowIdMap ↔
      (3 : Int) ∈ ([⟨2, false, 0, 4⟩, ⟨3, false, 0, 6⟩] : List ChromeWindow).map
        (fun cw => cw.id)) ∧
    (5 : Int) ∈ keysOf (TabManagerState.syncWindowList
        ⟨[(1, ⟨true, 1, true, 5, 0, 1⟩), (2, ⟨true, 2, false, -1, 0, 1⟩)],
          [(5, ⟨true, 1, true, 5, 0, 1⟩)], -1, -1, -1⟩
        [⟨2, false, 0, 4⟩, ⟨3, false, 0, 6⟩]).bookmarkIdMap := by
  have hwf : StoreWF ⟨[(1, ⟨true, 1, true, 5, 0, 1⟩), (2, ⟨true, 2, false, -1, 0, 1⟩)],
      [(5, ⟨true, 1, true, 5, 0, 1⟩)], -1, -1, -1⟩ := by unfold StoreWF; decide
  have hc := C2_syncWindowList hwf [⟨2, false, 0, 4⟩, ⟨3, false, 0, 6⟩]
  exact ⟨hwf, hc.2.1 1, hc.2.1 2, hc.2.1 3,
    hc.2.2 (1, ⟨true, 1, true, 5, 0, 1⟩) (by decide) rfl (by decide)⟩
